import Mathlib

/-!
Shallow embedding of the typed HTTP fetch layer ("fetcher") of this
repository: the Effect-based request executor with retry, timeout,
query-string construction, structured error classification and optional
schema validation.

The transport collaborator (the Effect HttpClient) is modelled as a stub
function from the built request and the 1-based attempt number to a
transport-level result: a received response, a transport error, or the
timeout timer firing first.  Responses are modelled abstractly: a status
code, the result of attempting to parse the body as JSON (none when the
body is not valid JSON), the raw body text, and an optional Content-Type
header.  The onError observer is modelled by recording, in order, every
Failure value it would be invoked with (only when an observer is
supplied, mirroring the `if (onError) onError(e)` guards in the source).
-/

namespace Fetcher

/-- All supported HTTP methods, as in the source HttpMethod union. -/
inductive HttpMethod
  | GET | POST | PUT | PATCH | DELETE | OPTIONS | HEAD
deriving DecidableEq, Repr

/-- A decoded JSON value, the shape of parsed response bodies. -/
inductive JsonValue
  | jnull
  | jbool (b : Bool)
  | jnum (n : Int)
  | jstr (s : String)
  | jarr (items : List JsonValue)
  | jobj (fields : List (String × JsonValue))
deriving Repr

/-- A scalar query-parameter value: string, number or boolean.
JS String(value) coercion is scalarString below. -/
inductive Scalar
  | str (s : String)
  | num (n : Int)
  | boolVal (b : Bool)
deriving DecidableEq, Repr

/-- JS String(value) coercion for scalar query values. -/
def scalarString : Scalar → String
  | .str s => s
  | .num n => toString n
  | .boolVal b => if b then "true" else "false"

/-- A query-parameter value: null or undefined, a scalar, or an array of
scalars possibly containing null or undefined elements (modelled as
Option, none standing for a nullish element). -/
inductive QueryValue
  | nullish
  | scalar (v : Scalar)
  | array (items : List (Option Scalar))
deriving DecidableEq, Repr

/-- A query-parameter mapping, in its iteration order
(Object.entries order of the source QueryParams record). -/
abbrev QueryParams := List (String × QueryValue)

/-- Whether a query value is the nullish case (null or undefined),
the values the source skips with `if (value == null) return`. -/
def isNullish : QueryValue → Bool
  | .nullish => true
  | _ => false

/-- Hex digit for percent-encoding (uppercase, as URLSearchParams). -/
def hexDigit (n : Nat) : Char :=
  if n < 10 then Char.ofNat (48 + n) else Char.ofNat (55 + n)

/-- Percent-encode a single byte as %XX. -/
def percentByte (b : UInt8) : String :=
  "%" ++ String.singleton (hexDigit (b.toNat / 16)) ++
    String.singleton (hexDigit (b.toNat % 16))

/-- application/x-www-form-urlencoded encoding of one byte, as
URLSearchParams.toString: alphanumerics and * - . _ kept, space
becomes +, anything else percent-encoded. -/
def formEncodeByte (b : UInt8) : String :=
  let n := b.toNat
  if n = 32 then "+"
  else if (48 ≤ n && n ≤ 57) || (65 ≤ n && n ≤ 90) || (97 ≤ n && n ≤ 122)
      || n = 42 || n = 45 || n = 46 || n = 95 then
    String.singleton (Char.ofNat n)
  else percentByte b

/-- application/x-www-form-urlencoded encoding of a string
(over its UTF-8 bytes), as URLSearchParams.toString applies. -/
def formEncode (s : String) : String :=
  String.join (s.toUTF8.toList.map formEncodeByte)

/-- One step of the source buildQueryString loop: the (key, value-string)
pairs appended to the URLSearchParams accumulator for one mapping entry.
Nullish values are skipped; array values append one pair per non-null
element in order; scalar values append one coerced pair. -/
def entryPairs : String × QueryValue → List (String × String)
  | (_, .nullish) => []
  | (k, .scalar v) => [(k, scalarString v)]
  | (k, .array items) =>
      (items.filterMap id).map (fun item => (k, scalarString item))

/-- The sequence of (key, value) pairs accumulated in the URLSearchParams
by the source buildQueryString: Object.entries iteration with
urlParams.append, skipping nullish values and expanding arrays. -/
def buildQueryStringEntries (params : QueryParams) : List (String × String) :=
  params.foldl (fun acc p => acc ++ entryPairs p) []

/-- URLSearchParams.toString over an entry sequence: form-urlencoded
key=value pairs joined by ampersands. -/
def urlParamsToString (entries : List (String × String)) : String :=
  String.intercalate "&" (entries.map (fun p => formEncode p.1 ++ "=" ++ formEncode p.2))

/-- The source buildQueryString: build a URLSearchParams from the mapping
and render it. -/
def buildQueryString (params : QueryParams) : String :=
  urlParamsToString (buildQueryStringEntries params)

/-- The URL computed by fetcher:
url = params ? input + "?" + buildQueryString(params) : input.
A params object is always truthy in JS, even when empty, so any supplied
mapping appends the question mark. -/
def requestUrl (input : String) (params : Option QueryParams) : String :=
  match params with
  | some ps => input ++ "?" ++ buildQueryString ps
  | none => input

/-- The failure taxonomy.  In the source, kinds are distinguished by the
construction site and the error class (FetcherError vs ValidationError);
here each construction site tags its kind explicitly. -/
inductive FailureKind
  | serializationFailure
  | transportFailure
  | timeoutFailure
  | httpStatusError
  | decodeFailure
  | validationFailure
deriving DecidableEq, Repr

/-- Diagnostic payload attached to a Failure (the responseData field of
FetcherError, or the data field of ValidationError). -/
inductive ErrPayload
  | jsonData (v : JsonValue)
  | decodeDiag (responseText : String)
  | valData (v : JsonValue)
deriving Repr

/-- A Failure value: the fields of FetcherError and ValidationError.
problems is some summary only for ValidationError. -/
structure Failure where
  kind : FailureKind
  message : String
  url : String
  status : Option Nat
  responseData : Option ErrPayload
  attempt : Nat
  problems : Option String
deriving Repr

/-- A request body.  JSON.stringify (HttpClientRequest.bodyJson) either
produces a payload string or fails with an error message; bodies are
modelled by which of the two happens. -/
inductive Body
  | encodable (payload : String)
  | unencodable (errMsg : String)
deriving Repr

/-- HttpClientRequest.bodyJson on a body: the encoded payload or the
serialization error message. -/
def bodyJson : Body → Except String String
  | .encodable p => .ok p
  | .unencodable m => .error m

/-- The built HttpClientRequest: method, URL, headers, optional encoded
body. -/
structure Request where
  method : HttpMethod
  url : String
  headers : List (String × String)
  body : Option String
deriving Repr

/-- buildRequest from the source: every branch (HttpClientRequest.get,
post, put, patch, del, options, head) creates a bodyless request with
that method and URL. -/
def buildRequest (method : HttpMethod) (url : String) : Request :=
  { method := method, url := url, headers := [], body := none }

/-- A received HTTP response as the executor observes it: status code,
the result of response.json (none when the body is not parseable JSON),
the raw body text, and the Content-Type header if present. -/
structure HttpResponse where
  status : Nat
  jsonResult : Option JsonValue
  text : String
  contentType : Option String
deriving Repr

/-- The outcome of one transport call raced against the timeout timer:
a received response, a transport-level error, or the timer firing
first. -/
inductive TransportResult
  | response (resp : HttpResponse)
  | transportError (msg : String)
  | timedOut
deriving Repr

/-- The transport collaborator: given the built request and the 1-based
attempt number, what this physical attempt observes. -/
abbrev Stub := Request → Nat → TransportResult

/-- A validator (ArkType schema): maps a decoded value to the typed value
or to a problems summary (the result.summary of type.errors). -/
abbrev Validator := JsonValue → Except String JsonValue

/-- The fetcher options with their source defaults:
retries = 0, retryDelay = 1000, timeout = 10000, headers empty,
no schema.  hasOnError records whether an onError observer was
supplied. -/
structure FetcherOptions where
  retries : Nat := 0
  retryDelay : Nat := 1000
  hasOnError : Bool := false
  timeoutMs : Nat := 10000
  headers : List (String × String) := []
  schema : Option Validator := none

/-- Mutable state threaded through one logical request: the attempt
counter, the recorded onError invocations, the Failures produced (one
per failing physical attempt, plus a pre-attempt serialization Failure
when body encoding fails), and the backoff delays slept before each
retry. -/
structure ExecState where
  attempt : Nat
  onErrorLog : List Failure
  failures : List Failure
  delays : List Nat
deriving Repr

/-- Record an onError invocation, only when an observer is supplied
(the source writes `if (onError) onError(e)`). -/
def logOnError (opts : FetcherOptions) (s : ExecState) (e : Failure) : ExecState :=
  if opts.hasOnError then { s with onErrorLog := s.onErrorLog ++ [e] } else s

/-- Record a Failure produced during the request. -/
def recordFailure (s : ExecState) (e : Failure) : ExecState :=
  { s with failures := s.failures ++ [e] }

/-- The n-th delay (n from 0) of Schedule.exponential(millis retryDelay)
with the default growth factor 2: retryDelay times 2 to the n. -/
def exponentialDelay (base n : Nat) : Nat := base * 2 ^ n

/-- The n-th delay of Schedule.recurs: recursion is immediate, no
delay. -/
def recursDelay (_n : Nat) : Nat := 0

/-- The n-th delay of the source retrySchedule,
Schedule.intersect(Schedule.exponential(millis retryDelay),
Schedule.recurs(retries)): an intersection waits for both sides, so its
delay is the maximum of the two. -/
def retryScheduleDelay (base n : Nat) : Nat :=
  max (exponentialDelay base n) (recursDelay n)

/-- In the source, `response.text` interpolated into the http-error
message is an Effect value (always truthy, so the
`|| "Request failed"` fallback never fires); its string form does not
depend on the body.  Modelled as an opaque token. -/
def effectTextRepr : String := "[object Object]"

/-- The FetcherError built in the non-2xx branch of executeRequest. -/
def httpErrorAt (url : String) (resp : HttpResponse) (attempt : Nat) : Failure :=
  { kind := .httpStatusError
    message := "HTTP " ++ toString resp.status ++ ": " ++ effectTextRepr
    url := url
    status := some resp.status
    responseData := resp.jsonResult.map ErrPayload.jsonData
    attempt := attempt
    problems := none }

/-- The message of the decode-failure FetcherError: status, Content-Type,
and the first 200 characters of the raw body text with an ellipsis
marker when truncated. -/
def decodeFailureMessage (resp : HttpResponse) : String :=
  "Failed to parse JSON response. Status: " ++ toString resp.status ++
    ", Content-Type: " ++ resp.contentType.getD "unknown" ++
    ", Body: " ++ resp.text.take 200 ++
    (if resp.text.length > 200 then "..." else "")

/-- The FetcherError built when a 2xx body fails to parse as JSON. -/
def decodeErrorAt (url : String) (resp : HttpResponse) (attempt : Nat) : Failure :=
  { kind := .decodeFailure
    message := decodeFailureMessage resp
    url := url
    status := some resp.status
    responseData := some (.decodeDiag resp.text)
    attempt := attempt
    problems := none }

/-- The FetcherError built when the timeout timer fires first. -/
def timeoutErrorAt (url : String) (attempt : Nat) : Failure :=
  { kind := .timeoutFailure
    message := "Request timed out"
    url := url
    status := none
    responseData := none
    attempt := attempt
    problems := none }

/-- The FetcherError built for a transport-level error, preserving the
underlying message. -/
def transportErrorAt (url msg : String) (attempt : Nat) : Failure :=
  { kind := .transportFailure
    message := msg
    url := url
    status := none
    responseData := none
    attempt := attempt
    problems := none }

/-- The ValidationError built when the schema rejects a decoded value:
message from the summary, the problems summary, and the decoded value as
data. -/
def validationErrorAt (url summary : String) (data : JsonValue) (attempt : Nat) : Failure :=
  { kind := .validationFailure
    message := "Response validation failed: " ++ summary
    url := url
    status := none
    responseData := some (.valData data)
    attempt := attempt
    problems := some summary }

/-- validateResponse from the source: succeed when no schema is
configured, otherwise run the schema; on rejection build the
ValidationError, invoke onError, and fail. -/
def validateResponse (opts : FetcherOptions) (url : String) (data : JsonValue)
    (attempt : Nat) (s : ExecState) : ExecState × Except Failure JsonValue :=
  match opts.schema with
  | none => (s, .ok data)
  | some schema =>
    match schema data with
    | .ok v => (s, .ok v)
    | .error summary =>
      let e := validationErrorAt url summary data attempt
      (recordFailure (logOnError opts s e) e, .error e)

/-- executeRequest from the source: one physical attempt.  Increment the
attempt counter; race the transport against the timer; classify a
timeout or transport error; on a received response classify non-2xx
statuses as http-status-error (invoking onError), otherwise parse the
body (decode-failure on parse error, with the raw-text diagnostic) and
validate it. -/
def executeRequest (opts : FetcherOptions) (stub : Stub) (req : Request)
    (url : String) (s : ExecState) : ExecState × Except Failure JsonValue :=
  let attempt := s.attempt + 1
  let s := { s with attempt := attempt }
  match stub req attempt with
  | .timedOut =>
    let e := timeoutErrorAt url attempt
    (recordFailure s e, .error e)
  | .transportError msg =>
    let e := transportErrorAt url msg attempt
    (recordFailure s e, .error e)
  | .response resp =>
    if resp.status < 200 ∨ 300 ≤ resp.status then
      let e := httpErrorAt url resp attempt
      (recordFailure (logOnError opts s e) e, .error e)
    else
      match resp.jsonResult with
      | none =>
        let e := decodeErrorAt url resp attempt
        (recordFailure s e, .error e)
      | some rawData => validateResponse opts url rawData attempt s

/-- Effect.retry with the source retrySchedule: every error recurs while
the Schedule.recurs budget remains, sleeping the exponential delay
before each retry.  budget is the number of retries still allowed. -/
def retryLoop (opts : FetcherOptions) (stub : Stub) (req : Request) (url : String) :
    Nat → ExecState → ExecState × Except Failure JsonValue
  | 0, s =>
    match executeRequest opts stub req url s with
    | (s1, .ok v) => (s1, .ok v)
    | (s1, .error e) => (s1, .error e)
  | b + 1, s =>
    match executeRequest opts stub req url s with
    | (s1, .ok v) => (s1, .ok v)
    | (s1, .error _) =>
      let s2 := { s1 with
        delays := s1.delays ++ [retryScheduleDelay opts.retryDelay (s1.attempt - 1)] }
      retryLoop opts stub req url b s2

/-- The serialization FetcherError built when bodyJson fails.  It is
constructed in the outer generator, before the first physical attempt,
so the attempt counter it captures is still 0. -/
def serializationErrorAt (url msg : String) : Failure :=
  { kind := .serializationFailure
    message := "Failed to serialize request body: " ++ msg
    url := url
    status := none
    responseData := none
    attempt := 0
    problems := none }

/-- The body-attachment step of fetcher: when a body is present and the
method is POST, PUT or PATCH, encode it with bodyJson; encoding failure
becomes a serialization FetcherError carrying the current attempt
counter, still 0 at this point.  Otherwise the request is unchanged and
any body argument is ignored. -/
def prepareRequest (method : HttpMethod) (url : String)
    (headers : List (String × String)) (body : Option Body) : Except Failure Request :=
  let req : Request := { buildRequest method url with headers := headers }
  match body with
  | some b =>
    if method = .POST ∨ method = .PUT ∨ method = .PATCH then
      match bodyJson b with
      | .error msg => .error (serializationErrorAt url msg)
      | .ok payload => .ok { req with body := some payload }
    else .ok req
  | none => .ok req

/-- The observable result of one logical request: the resolved URL, the
final outcome, the number of physical attempts made, the onError
invocations in order, the Failures produced in order, and the backoff
delays slept. -/
structure FetchResult where
  url : String
  outcome : Except Failure JsonValue
  attempts : Nat
  onErrorLog : List Failure
  failures : List Failure
  delays : List Nat
deriving Repr

/-- The final pipe of fetcher: run the retry loop, then the catchAll
boundary.  Every error of the loop is a FetcherError or ValidationError
instance, so the boundary invokes onError with it unconditionally and
re-fails with the same error.  (The branch wrapping an unrecognized
error is unreachable here: the loop only produces tagged Failures.) -/
def runLoop (opts : FetcherOptions) (stub : Stub) (req : Request)
    (url : String) : FetchResult :=
  let s0 : ExecState := { attempt := 0, onErrorLog := [], failures := [], delays := [] }
  match retryLoop opts stub req url opts.retries s0 with
  | (s, .ok v) =>
    { url := url, outcome := .ok v, attempts := s.attempt
      onErrorLog := s.onErrorLog, failures := s.failures, delays := s.delays }
  | (s, .error e) =>
    let s := logOnError opts s e
    { url := url, outcome := .error e, attempts := s.attempt
      onErrorLog := s.onErrorLog, failures := s.failures, delays := s.delays }

/-- fetcher from the source: resolve the URL from the params mapping,
build the request with headers, attach the body (a serialization failure
aborts the whole generator before the retry pipe, so it is never
retried and never reaches the catchAll onError), then run the retry
loop. -/
def fetcher (input : String) (method : HttpMethod) (opts : FetcherOptions)
    (params : Option QueryParams) (body : Option Body) (stub : Stub) : FetchResult :=
  let url := requestUrl input params
  match prepareRequest method url opts.headers body with
  | .error e =>
    { url := url, outcome := .error e, attempts := 0
      onErrorLog := [], failures := [e], delays := [] }
  | .ok req => runLoop opts stub req url

/-- The get convenience wrapper: fetcher with method fixed to GET and no
body. -/
def get (url : String) (opts : FetcherOptions) (params : Option QueryParams)
    (stub : Stub) : FetchResult :=
  fetcher url .GET opts params none stub

/-- The failure kind of an outcome, none on success. -/
def errKind : Except Failure JsonValue → Option FailureKind
  | .error e => some e.kind
  | .ok _ => none

/-- The failure kind of a finished logical request, none on success. -/
def outcomeKind (r : FetchResult) : Option FailureKind :=
  errKind r.outcome

/-- Scenario B response: status 500 on every attempt. -/
def scenarioBResp : HttpResponse :=
  { status := 500, jsonResult := none, text := "fail", contentType := none }

/-- Scenario B stub: returns the 500 response on every attempt. -/
def scenarioBStub : Stub := fun _ _ => .response scenarioBResp

/-- Scenario B run: maxRetries 2 against the always-500 stub. -/
def scenarioBRun : FetchResult :=
  fetcher "https://x/ok" .GET { retries := 2 } none none scenarioBStub

/-- A stub that is never consulted in serialization-failure runs. -/
def unusedStub : Stub := fun _ _ => .transportError "unused"

/-- A POST whose body fails to encode, maxRetries left at default. -/
def c2CexRun : FetchResult :=
  fetcher "https://api2" .POST {} none (some (.unencodable "circular structure")) unusedStub

/-- A POST with an unencodable body, for the C8 counterexample. -/
def c8CexRun : FetchResult :=
  fetcher "https://api8" .POST {} none (some (.unencodable "cyclic")) unusedStub

/-- A GET with an observer against the always-500 stub, no retries, for
the C6 counterexample. -/
def c6CexRun : FetchResult :=
  fetcher "https://y" .GET { hasOnError := true } none none scenarioBStub

end Fetcher

namespace Fetcher

/-! ## Query-string construction -/

/-- The buildQueryString fold with an arbitrary accumulator splits off
the accumulator. -/
lemma buildQueryStringEntries_acc (ps : QueryParams) :
    ∀ acc : List (String × String),
      ps.foldl (fun a p => a ++ entryPairs p) acc =
        acc ++ ps.foldl (fun a p => a ++ entryPairs p) [] := by
  induction ps with
  | nil => intro acc; simp
  | cons p ps ih =>
    intro acc
    simp only [List.foldl_cons]
    rw [ih (acc ++ entryPairs p), ih ([] ++ entryPairs p)]
    simp [List.append_assoc]

/-- Unfolding buildQueryStringEntries one mapping entry at a time. -/
lemma buildQueryStringEntries_cons (p : String × QueryValue) (ps : QueryParams) :
    buildQueryStringEntries (p :: ps) = entryPairs p ++ buildQueryStringEntries ps := by
  unfold buildQueryStringEntries
  simp only [List.foldl_cons]
  rw [buildQueryStringEntries_acc ps ([] ++ entryPairs p)]
  simp

/-- buildQueryStringEntries is a homomorphism for concatenation of
mappings. -/
lemma buildQueryStringEntries_append (ps qs : QueryParams) :
    buildQueryStringEntries (ps ++ qs) =
      buildQueryStringEntries ps ++ buildQueryStringEntries qs := by
  induction ps with
  | nil => simp [buildQueryStringEntries]
  | cons p ps ih =>
    simp only [List.cons_append, buildQueryStringEntries_cons, ih, List.append_assoc]

/-- Nullish entries contribute nothing to the pair sequence. -/
lemma entryPairs_nullish (p : String × QueryValue) (h : isNullish p.2 = true) :
    entryPairs p = [] := by
  obtain ⟨k, v⟩ := p
  cases v <;> simp_all [isNullish, entryPairs]

/-- Dropping the nullish entries of a mapping does not change the
resulting pair sequence. -/
lemma buildQueryStringEntries_filter (ps : QueryParams) :
    buildQueryStringEntries (ps.filter fun p => !isNullish p.2) =
      buildQueryStringEntries ps := by
  induction ps with
  | nil => rfl
  | cons p ps ih =>
    by_cases h : isNullish p.2 = true
    · rw [List.filter_cons_of_neg (by simp [h])]
      rw [buildQueryStringEntries_cons, entryPairs_nullish p h, ih]
      rfl
    · rw [List.filter_cons_of_pos (by simp_all)]
      rw [buildQueryStringEntries_cons, buildQueryStringEntries_cons, ih]

/-- If every value of a mapping is nullish the pair sequence is empty. -/
lemma buildQueryStringEntries_all_nullish (ps : QueryParams)
    (h : ps.all (fun p => isNullish p.2) = true) :
    buildQueryStringEntries ps = [] := by
  induction ps with
  | nil => rfl
  | cons p ps ih =>
    simp only [List.all_cons, Bool.and_eq_true] at h
    rw [buildQueryStringEntries_cons, entryPairs_nullish p h.1, ih h.2]
    rfl

/-- C4: query serialization.  Entries whose value is null or undefined
never appear in the query string (dropping them changes nothing); an
array value yields one repeated key per non-null element, preserving
element order; a scalar value yields one entry with the value coerced to
its string form; and the pair sequence respects the iteration order of
the mapping (it is a concatenation homomorphism over the mapping, one
entry at a time). -/
theorem C4_query_serialization (ps qs : QueryParams) (k : String) (v : Scalar)
    (items : List (Option Scalar)) :
    buildQueryStringEntries (ps ++ qs) =
        buildQueryStringEntries ps ++ buildQueryStringEntries qs ∧
    buildQueryStringEntries [(k, QueryValue.nullish)] = [] ∧
    buildQueryStringEntries (ps.filter fun p => !isNullish p.2) =
        buildQueryStringEntries ps ∧
    buildQueryStringEntries [(k, QueryValue.scalar v)] = [(k, scalarString v)] ∧
    buildQueryStringEntries [(k, QueryValue.array items)] =
        (items.filterMap id).map (fun item => (k, scalarString item)) := by
  refine ⟨buildQueryStringEntries_append ps qs, rfl,
    buildQueryStringEntries_filter ps, rfl, ?_⟩
  rw [buildQueryStringEntries_cons]
  simp [buildQueryStringEntries, entryPairs]

/-- C10: whenever a params mapping is supplied, even empty or entirely
nullish, the request URL is the input URL with a question mark appended
followed by the serialized query string (a bare trailing question mark
when the serialization is empty); only an omitted mapping leaves the
URL unchanged. -/
theorem C10_url_question_mark (input : String) (ps : QueryParams)
    (h : ps.all (fun p => isNullish p.2) = true) :
    requestUrl input (some ps) = input ++ "?" ∧
    requestUrl input (some []) = input ++ "?" ∧
    requestUrl input none = input ∧
    requestUrl input (some ps) = input ++ "?" ++ buildQueryString ps := by
  have hempty : buildQueryString ps = "" := by
    rw [buildQueryString, buildQueryStringEntries_all_nullish ps h]
    rfl
  refine ⟨?_, ?_, rfl, rfl⟩
  · show input ++ "?" ++ buildQueryString ps = input ++ "?"
    rw [hempty, String.append_empty]
  · show input ++ "?" ++ buildQueryString [] = input ++ "?"
    rw [show buildQueryString [] = "" from rfl, String.append_empty]

/-- C10 witness: a mapping with a single null-valued key. -/
theorem C10_url_question_mark_witness :
    ([(("a" : String), QueryValue.nullish)].all (fun p => isNullish p.2) = true) ∧
    (requestUrl "https://u" (some [("a", QueryValue.nullish)]) = "https://u" ++ "?" ∧
     requestUrl "https://u" (some []) = "https://u" ++ "?" ∧
     requestUrl "https://u" none = "https://u" ∧
     requestUrl "https://u" (some [("a", QueryValue.nullish)]) =
       "https://u" ++ "?" ++ buildQueryString [("a", QueryValue.nullish)]) :=
  ⟨by decide, C10_url_question_mark "https://u" [("a", QueryValue.nullish)] (by decide)⟩

/-! ## Backoff schedule -/

/-- C7: the backoff delay preceding physical attempt N+1 is the
(N-1)-th delay of the retry schedule and equals retryDelay times 2 to
the (N-1), the base retryDelay defaulting to 1000 ms; the delay sequence
is monotonically non-decreasing in N. -/
theorem C7_backoff_growth (base N M : Nat) (_h1 : 1 ≤ N) (h2 : N ≤ M) :
    retryScheduleDelay base (N - 1) = base * 2 ^ (N - 1) ∧
    retryScheduleDelay base (N - 1) ≤ retryScheduleDelay base (M - 1) ∧
    ({} : FetcherOptions).retryDelay = 1000 := by
  refine ⟨?_, ?_, rfl⟩
  · simp [retryScheduleDelay, exponentialDelay, recursDelay]
  · simp only [retryScheduleDelay, exponentialDelay, recursDelay, Nat.max_def]
    simp only [Nat.le_zero]
    have : base * 2 ^ (N - 1) ≤ base * 2 ^ (M - 1) :=
      Nat.mul_le_mul_left base
        (Nat.pow_le_pow_right (by norm_num) (Nat.sub_le_sub_right h2 1))
    split <;> split <;> omega

/-- C7 witness: base 1000, N = 1, M = 2. -/
theorem C7_backoff_growth_witness :
    (1 ≤ 1 ∧ 1 ≤ 2) ∧
    (retryScheduleDelay 1000 (1 - 1) = 1000 * 2 ^ (1 - 1) ∧
     retryScheduleDelay 1000 (1 - 1) ≤ retryScheduleDelay 1000 (2 - 1) ∧
     ({} : FetcherOptions).retryDelay = 1000) :=
  ⟨⟨by decide, by decide⟩, C7_backoff_growth 1000 1 2 (by decide) (by decide)⟩

end Fetcher

namespace Fetcher

/-! ## Status classification and decode vs validate -/

/-- C3: status classification.  A received status in [200, 300) is never
classified as http-status-error; every received status outside that
range always is, as a FetcherError carrying that status. -/
theorem C3_status_classification (opts : FetcherOptions) (stub : Stub) (req : Request)
    (url : String) (s : ExecState) (resp : HttpResponse)
    (hstub : stub req (s.attempt + 1) = .response resp) :
    if resp.status < 200 ∨ 300 ≤ resp.status then
      (executeRequest opts stub req url s).2 = .error (httpErrorAt url resp (s.attempt + 1)) ∧
      (httpErrorAt url resp (s.attempt + 1)).kind = .httpStatusError ∧
      (httpErrorAt url resp (s.attempt + 1)).status = some resp.status
    else
      errKind (executeRequest opts stub req url s).2 ≠ some .httpStatusError := by
  by_cases hc : resp.status < 200 ∨ 300 ≤ resp.status
  · simp only [if_pos hc, executeRequest, hstub]
    exact ⟨by simp [if_pos hc, recordFailure, logOnError], rfl, rfl⟩
  · simp only [if_neg hc, executeRequest, hstub]
    cases hj : resp.jsonResult with
    | none => simp [if_neg hc, errKind, decodeErrorAt, recordFailure]
    | some raw =>
      simp only [if_neg hc, validateResponse]
      cases hs : opts.schema with
      | none => simp [errKind]
      | some schema =>
        cases hr : schema raw with
        | ok v => simp [hr, errKind]
        | error summary =>
          simp [hr, errKind, validationErrorAt, recordFailure, logOnError]

/-- C3 witness: a stub returning status 500 at attempt 1. -/
theorem C3_status_classification_witness :
    ((fun (_ : Request) (_ : Nat) => TransportResult.response scenarioBResp) { method := .GET, url := "u", headers := [], body := none } (({ attempt := 0, onErrorLog := [], failures := [], delays := [] } : ExecState).attempt + 1) = .response scenarioBResp) ∧
    (if scenarioBResp.status < 200 ∨ 300 ≤ scenarioBResp.status then
      (executeRequest {} (fun _ _ => TransportResult.response scenarioBResp) { method := .GET, url := "u", headers := [], body := none } "u" { attempt := 0, onErrorLog := [], failures := [], delays := [] }).2 = .error (httpErrorAt "u" scenarioBResp (({ attempt := 0, onErrorLog := [], failures := [], delays := [] } : ExecState).attempt + 1)) ∧
      (httpErrorAt "u" scenarioBResp 1).kind = .httpStatusError ∧
      (httpErrorAt "u" scenarioBResp 1).status = some scenarioBResp.status
    else
      errKind (executeRequest {} (fun _ _ => TransportResult.response scenarioBResp) { method := .GET, url := "u", headers := [], body := none } "u" { attempt := 0, onErrorLog := [], failures := [], delays := [] }).2 ≠ some .httpStatusError) :=
  ⟨rfl, C3_status_classification {} (fun _ _ => TransportResult.response scenarioBResp)
    { method := .GET, url := "u", headers := [], body := none } "u"
    { attempt := 0, onErrorLog := [], failures := [], delays := [] } scenarioBResp rfl⟩

end Fetcher

namespace Fetcher

/-- C5: decode failure versus validation failure.  On a 2xx response, an
unparseable body always yields a decode-failure FetcherError carrying
the status and the first 200 characters of the raw text with an
ellipsis marker when truncated; a parsed body rejected by the supplied
validator always yields a validation-failure ValidationError carrying
the problems summary and the decoded value; and the two kinds are
distinct. -/
theorem C5_decode_vs_validate (opts : FetcherOptions) (schema : Validator)
    (req : Request) (url : String) (s : ExecState) (status : Nat) (text : String)
    (ct : Option String) (raw : JsonValue) (summary : String)
    (hschema : opts.schema = some schema)
    (h2 : 200 ≤ status) (h3 : status < 300)
    (hrej : schema raw = .error summary) :
    (executeRequest opts
        (fun _ _ => .response { status := status, jsonResult := none, text := text, contentType := ct })
        req url s).2 =
      .error (decodeErrorAt url { status := status, jsonResult := none, text := text, contentType := ct } (s.attempt + 1)) ∧
    (decodeErrorAt url { status := status, jsonResult := none, text := text, contentType := ct } (s.attempt + 1)).kind = .decodeFailure ∧
    (decodeErrorAt url { status := status, jsonResult := none, text := text, contentType := ct } (s.attempt + 1)).status = some status ∧
    (decodeErrorAt url { status := status, jsonResult := none, text := text, contentType := ct } (s.attempt + 1)).message =
      "Failed to parse JSON response. Status: " ++ toString status ++
        ", Content-Type: " ++ ct.getD "unknown" ++
        ", Body: " ++ text.take 200 ++ (if text.length > 200 then "..." else "") ∧
    (decodeErrorAt url { status := status, jsonResult := none, text := text, contentType := ct } (s.attempt + 1)).responseData =
      some (.decodeDiag text) ∧
    (executeRequest opts
        (fun _ _ => .response { status := status, jsonResult := some raw, text := text, contentType := ct })
        req url s).2 =
      .error (validationErrorAt url summary raw (s.attempt + 1)) ∧
    (validationErrorAt url summary raw (s.attempt + 1)).kind = .validationFailure ∧
    (validationErrorAt url summary raw (s.attempt + 1)).problems = some summary ∧
    (validationErrorAt url summary raw (s.attempt + 1)).responseData = some (.valData raw) ∧
    FailureKind.decodeFailure ≠ FailureKind.validationFailure := by
  have hc : ¬(status < 200 ∨ 300 ≤ status) := by omega
  refine ⟨?_, rfl, rfl, rfl, rfl, ?_, rfl, rfl, rfl, by decide⟩
  · simp [executeRequest, if_neg hc, recordFailure]
  · simp [executeRequest, if_neg hc, validateResponse, hschema, hrej,
      recordFailure, logOnError]

/-- C5 witness: status 200, unparseable body "not-json", and a validator
rejecting the decoded value jnull with a non-empty summary. -/
theorem C5_decode_vs_validate_witness :
    (({ retries := 0, retryDelay := 1000, hasOnError := false, timeoutMs := 10000,
        headers := [], schema := some (fun _ => .error "a must be a number") } : FetcherOptions).schema =
      some (fun _ => Except.error "a must be a number") ∧
     200 ≤ 200 ∧ 200 < 300 ∧
     (fun (_ : JsonValue) => (Except.error "a must be a number" : Except String JsonValue)) JsonValue.jnull =
       .error "a must be a number") ∧
    ((executeRequest { schema := some (fun _ => .error "a must be a number") }
        (fun _ _ => .response { status := 200, jsonResult := none, text := "not-json", contentType := none })
        { method := .GET, url := "w", headers := [], body := none } "w"
        { attempt := 0, onErrorLog := [], failures := [], delays := [] }).2 =
      .error (decodeErrorAt "w" { status := 200, jsonResult := none, text := "not-json", contentType := none } (({ attempt := 0, onErrorLog := [], failures := [], delays := [] } : ExecState).attempt + 1)) ∧
    (decodeErrorAt "w" { status := 200, jsonResult := none, text := "not-json", contentType := none } (({ attempt := 0, onErrorLog := [], failures := [], delays := [] } : ExecState).attempt + 1)).kind = .decodeFailure ∧
    (decodeErrorAt "w" { status := 200, jsonResult := none, text := "not-json", contentType := none } (({ attempt := 0, onErrorLog := [], failures := [], delays := [] } : ExecState).attempt + 1)).status = some 200 ∧
    (decodeErrorAt "w" { status := 200, jsonResult := none, text := "not-json", contentType := none } (({ attempt := 0, onErrorLog := [], failures := [], delays := [] } : ExecState).attempt + 1)).message =
      "Failed to parse JSON response. Status: " ++ toString 200 ++
        ", Content-Type: " ++ (none : Option String).getD "unknown" ++
        ", Body: " ++ ("not-json" : String).take 200 ++ (if ("not-json" : String).length > 200 then "..." else "") ∧
    (decodeErrorAt "w" { status := 200, jsonResult := none, text := "not-json", contentType := none } (({ attempt := 0, onErrorLog := [], failures := [], delays := [] } : ExecState).attempt + 1)).responseData =
      some (.decodeDiag "not-json") ∧
    (executeRequest { schema := some (fun _ => .error "a must be a number") }
        (fun _ _ => .response { status := 200, jsonResult := some JsonValue.jnull, text := "not-json", contentType := none })
        { method := .GET, url := "w", headers := [], body := none } "w"
        { attempt := 0, onErrorLog := [], failures := [], delays := [] }).2 =
      .error (validationErrorAt "w" "a must be a number" JsonValue.jnull (({ attempt := 0, onErrorLog := [], failures := [], delays := [] } : ExecState).attempt + 1)) ∧
    (validationErrorAt "w" "a must be a number" JsonValue.jnull (({ attempt := 0, onErrorLog := [], failures := [], delays := [] } : ExecState).attempt + 1)).kind = .validationFailure ∧
    (validationErrorAt "w" "a must be a number" JsonValue.jnull (({ attempt := 0, onErrorLog := [], failures := [], delays := [] } : ExecState).attempt + 1)).problems = some "a must be a number" ∧
    (validationErrorAt "w" "a must be a number" JsonValue.jnull (({ attempt := 0, onErrorLog := [], failures := [], delays := [] } : ExecState).attempt + 1)).responseData = some (.valData JsonValue.jnull) ∧
    FailureKind.decodeFailure ≠ FailureKind.validationFailure) :=
  ⟨⟨rfl, by decide, by decide, rfl⟩,
   C5_decode_vs_validate { schema := some (fun _ => .error "a must be a number") }
     (fun _ => .error "a must be a number")
     { method := .GET, url := "w", headers := [], body := none } "w"
     { attempt := 0, onErrorLog := [], failures := [], delays := [] }
     200 "not-json" none JsonValue.jnull "a must be a number"
     rfl (by decide) (by decide) rfl⟩

end Fetcher


namespace Fetcher

/-! ## One physical attempt: case analysis -/

/-- logOnError never changes the attempt counter. -/
lemma logOnError_attempt (opts : FetcherOptions) (s : ExecState) (e : Failure) :
    (logOnError opts s e).attempt = s.attempt := by
  unfold logOnError; split <;> rfl

/-- logOnError never changes the failure trace. -/
lemma logOnError_failures (opts : FetcherOptions) (s : ExecState) (e : Failure) :
    (logOnError opts s e).failures = s.failures := by
  unfold logOnError; split <;> rfl

/-- logOnError never changes the delay trace. -/
lemma logOnError_delays (opts : FetcherOptions) (s : ExecState) (e : Failure) :
    (logOnError opts s e).delays = s.delays := by
  unfold logOnError; split <;> rfl

/-- The onError log grows by the invoked Failure or stays unchanged,
depending on whether an observer is supplied. -/
lemma logOnError_onErrorLog (opts : FetcherOptions) (s : ExecState) (e : Failure) :
    (logOnError opts s e).onErrorLog = s.onErrorLog ∨
    (logOnError opts s e).onErrorLog = s.onErrorLog ++ [e] := by
  unfold logOnError; split
  · exact Or.inr rfl
  · exact Or.inl rfl

/-- Each physical attempt either succeeds, leaving the traces untouched
and incrementing the attempt counter, or fails with a Failure carrying
the current 1-based attempt number and the request URL, recorded in the
failure trace, with at most one onError invocation; no attempt ever
produces a serialization failure. -/
lemma executeRequest_cases (opts : FetcherOptions) (stub : Stub) (req : Request)
    (url : String) (s : ExecState) :
    (∃ v, executeRequest opts stub req url s = ({ s with attempt := s.attempt + 1 }, .ok v)) ∨
    (∃ e s1, executeRequest opts stub req url s = (s1, .error e) ∧
       s1.attempt = s.attempt + 1 ∧
       s1.failures = s.failures ++ [e] ∧
       s1.delays = s.delays ∧
       (s1.onErrorLog = s.onErrorLog ∨ s1.onErrorLog = s.onErrorLog ++ [e]) ∧
       e.attempt = s.attempt + 1 ∧
       e.url = url ∧
       e.kind ≠ .serializationFailure) := by
  cases htr : stub req (s.attempt + 1) with
  | timedOut =>
    refine Or.inr ⟨timeoutErrorAt url (s.attempt + 1),
      recordFailure { s with attempt := s.attempt + 1 } (timeoutErrorAt url (s.attempt + 1)),
      by simp [executeRequest, htr], rfl, rfl, rfl, Or.inl rfl, rfl, rfl, by simp [timeoutErrorAt]⟩
  | transportError msg =>
    refine Or.inr ⟨transportErrorAt url msg (s.attempt + 1),
      recordFailure { s with attempt := s.attempt + 1 } (transportErrorAt url msg (s.attempt + 1)),
      by simp [executeRequest, htr], rfl, rfl, rfl, Or.inl rfl, rfl, rfl, by simp [transportErrorAt]⟩
  | response resp =>
    by_cases hc : resp.status < 200 ∨ 300 ≤ resp.status
    · refine Or.inr ⟨httpErrorAt url resp (s.attempt + 1),
        recordFailure
          (logOnError opts { s with attempt := s.attempt + 1 } (httpErrorAt url resp (s.attempt + 1)))
          (httpErrorAt url resp (s.attempt + 1)),
        by simp [executeRequest, htr, if_pos hc], ?_, ?_, ?_, ?_, rfl, rfl, by simp [httpErrorAt]⟩
      · simp [recordFailure, logOnError_attempt]
      · simp [recordFailure, logOnError_failures]
      · simp [recordFailure, logOnError_delays]
      · simpa [recordFailure] using
          logOnError_onErrorLog opts { s with attempt := s.attempt + 1 }
            (httpErrorAt url resp (s.attempt + 1))
    · cases hj : resp.jsonResult with
      | none =>
        refine Or.inr ⟨decodeErrorAt url resp (s.attempt + 1),
          recordFailure { s with attempt := s.attempt + 1 } (decodeErrorAt url resp (s.attempt + 1)),
          by simp [executeRequest, htr, if_neg hc, hj], rfl, rfl, rfl, Or.inl rfl, rfl, rfl,
          by simp [decodeErrorAt]⟩
      | some raw =>
        cases hs : opts.schema with
        | none =>
          exact Or.inl ⟨raw, by simp [executeRequest, htr, if_neg hc, hj, validateResponse, hs]⟩
        | some schema =>
          cases hr : schema raw with
          | ok v =>
            exact Or.inl ⟨v, by simp [executeRequest, htr, if_neg hc, hj, validateResponse, hs, hr]⟩
          | error summary =>
            refine Or.inr ⟨validationErrorAt url summary raw (s.attempt + 1),
              recordFailure
                (logOnError opts { s with attempt := s.attempt + 1 }
                  (validationErrorAt url summary raw (s.attempt + 1)))
                (validationErrorAt url summary raw (s.attempt + 1)),
              by simp [executeRequest, htr, if_neg hc, hj, validateResponse, hs, hr],
              ?_, ?_, ?_, ?_, rfl, rfl, by simp [validationErrorAt]⟩
            · simp [recordFailure, logOnError_attempt]
            · simp [recordFailure, logOnError_failures]
            · simp [recordFailure, logOnError_delays]
            · simpa [recordFailure] using
                logOnError_onErrorLog opts { s with attempt := s.attempt + 1 }
                  (validationErrorAt url summary raw (s.attempt + 1))

end Fetcher

namespace Fetcher

/-! ## The retry loop and the final boundary -/

/-- Across the retry loop, the attempt counter never exceeds the retry
budget plus one, and a final Failure is produced only at exhaustion: it
carries the attempt counter at exhaustion (the number of attempts
actually made) and the request URL, and is never a serialization
failure. -/
lemma retryLoop_spec (opts : FetcherOptions) (stub : Stub) (req : Request)
    (url : String) :
    ∀ (b : Nat) (s : ExecState),
      (retryLoop opts stub req url b s).1.attempt ≤ s.attempt + (b + 1) ∧
      (∀ e, (retryLoop opts stub req url b s).2 = .error e →
        (retryLoop opts stub req url b s).1.attempt = s.attempt + (b + 1) ∧
        e.attempt = (retryLoop opts stub req url b s).1.attempt ∧
        e.url = url ∧
        e.kind ≠ .serializationFailure) := by
  intro b
  induction b with
  | zero =>
    intro s
    rcases executeRequest_cases opts stub req url s with ⟨v, hE⟩ |
      ⟨e, s1, hE, ha, _, _, _, hea, heu, hek⟩
    · simp [retryLoop, hE]
    · simp only [retryLoop, hE]
      refine ⟨by omega, ?_⟩
      rintro e' he'
      cases he'
      exact ⟨by omega, by omega, heu, hek⟩
  | succ b ih =>
    intro s
    rcases executeRequest_cases opts stub req url s with ⟨v, hE⟩ |
      ⟨e, s1, hE, ha, _, _, _, hea, heu, hek⟩
    · simp [retryLoop, hE]
    · simp only [retryLoop, hE]
      have hs2 := ih { s1 with
        delays := s1.delays ++ [retryScheduleDelay opts.retryDelay (s1.attempt - 1)] }
      refine ⟨by have := hs2.1; simp at this; omega, ?_⟩
      intro e' he'
      obtain ⟨h1, h2, h3, h4⟩ := hs2.2 e' he'
      simp at h1
      exact ⟨by omega, h2, h3, h4⟩

/-- The final catchAll boundary preserves the outcome and the attempt
counter; runLoop therefore returns at most retries + 1 attempts, and a
final Failure carries the attempt count, the URL, and a
non-serialization kind. -/
lemma runLoop_spec (opts : FetcherOptions) (stub : Stub) (req : Request)
    (url : String) :
    (runLoop opts stub req url).url = url ∧
    (runLoop opts stub req url).attempts ≤ opts.retries + 1 ∧
    (∀ e, (runLoop opts stub req url).outcome = .error e →
      e.attempt = (runLoop opts stub req url).attempts ∧
      e.url = url ∧ e.kind ≠ .serializationFailure ∧
      (runLoop opts stub req url).attempts = opts.retries + 1) := by
  have hspec := retryLoop_spec opts stub req url opts.retries
    { attempt := 0, onErrorLog := [], failures := [], delays := [] }
  rcases hL : retryLoop opts stub req url opts.retries
      { attempt := 0, onErrorLog := [], failures := [], delays := [] } with ⟨sfin, out⟩
  rw [hL] at hspec
  cases out with
  | ok v =>
    refine ⟨by simp [runLoop, hL], ?_, ?_⟩
    · have h1 := hspec.1
      simp only at h1
      simpa [runLoop, hL] using h1
    · intro e he
      simp [runLoop, hL] at he
  | error e0 =>
    obtain ⟨h1, h2, h3, h4⟩ := hspec.2 e0 rfl
    simp only at h1 h2
    refine ⟨?_, ?_, ?_⟩
    · simp [runLoop, hL]
    · simp only [runLoop, hL]
      rw [logOnError_attempt]
      omega
    · intro e he
      have he0 : e0 = e := by
        simp only [runLoop, hL] at he
        exact Except.error.inj he
      subst he0
      simp only [runLoop, hL]
      rw [logOnError_attempt]
      exact ⟨by omega, h3, h4, by omega⟩

/-- A prepareRequest failure is the pre-attempt serialization Failure:
kind serialization-failure, attempt 0, carrying the request URL. -/
lemma prepareRequest_error (method : HttpMethod) (url : String)
    (hs : List (String × String)) (body : Option Body) (e0 : Failure)
    (h : prepareRequest method url hs body = .error e0) :
    e0.kind = .serializationFailure ∧ e0.attempt = 0 ∧ e0.url = url := by
  cases body with
  | none => simp [prepareRequest] at h
  | some b =>
    by_cases hm : method = .POST ∨ method = .PUT ∨ method = .PATCH
    · cases hb : bodyJson b with
      | ok p => simp [prepareRequest, if_pos hm, hb] at h
      | error msg =>
        simp [prepareRequest, if_pos hm, hb] at h
        subst h
        simp [serializationErrorAt]
    · simp [prepareRequest, if_neg hm] at h

end Fetcher

namespace Fetcher

/-- C1: retry bound.  Whenever a logical request returns a final
Failure, at most maxRetries + 1 physical attempts were made and the
Failure's attempt number equals the number of attempts actually made;
in Scenario B (always-500 stub, maxRetries 2) exactly 3 attempts are
made and the final Failure is an http-status-error with attempt 3 and
status 500. -/
theorem C1_retry_bound (input : String) (method : HttpMethod) (opts : FetcherOptions)
    (params : Option QueryParams) (body : Option Body) (stub : Stub) (e : Failure)
    (h : (fetcher input method opts params body stub).outcome = .error e) :
    (fetcher input method opts params body stub).attempts ≤ opts.retries + 1 ∧
    e.attempt = (fetcher input method opts params body stub).attempts ∧
    scenarioBRun.attempts = 3 ∧
    scenarioBRun.outcome = .error (httpErrorAt "https://x/ok" scenarioBResp 3) ∧
    (httpErrorAt "https://x/ok" scenarioBResp 3).kind = .httpStatusError ∧
    (httpErrorAt "https://x/ok" scenarioBResp 3).attempt = 3 ∧
    (httpErrorAt "https://x/ok" scenarioBResp 3).status = some 500 := by
  refine ⟨?_, ?_, rfl, rfl, rfl, rfl, rfl⟩ <;>
  · cases hp : prepareRequest method (requestUrl input params) opts.headers body with
    | error e0 =>
      have hpe := prepareRequest_error method (requestUrl input params) opts.headers body e0 hp
      simp only [fetcher, hp] at h ⊢
      cases h
      omega
    | ok req =>
      have hrl := runLoop_spec opts stub req (requestUrl input params)
      simp only [fetcher, hp] at h ⊢
      first
      | exact hrl.2.1
      | exact (hrl.2.2 e h).1

/-- C1 witness: Scenario B itself discharges the final-Failure
hypothesis. -/
theorem C1_retry_bound_witness :
    ((fetcher "https://x/ok" .GET { retries := 2 } none none scenarioBStub).outcome =
      .error (httpErrorAt "https://x/ok" scenarioBResp 3)) ∧
    ((fetcher "https://x/ok" .GET { retries := 2 } none none scenarioBStub).attempts ≤
        ({ retries := 2 } : FetcherOptions).retries + 1 ∧
     (httpErrorAt "https://x/ok" scenarioBResp 3).attempt =
        (fetcher "https://x/ok" .GET { retries := 2 } none none scenarioBStub).attempts ∧
     scenarioBRun.attempts = 3 ∧
     scenarioBRun.outcome = .error (httpErrorAt "https://x/ok" scenarioBResp 3) ∧
     (httpErrorAt "https://x/ok" scenarioBResp 3).kind = .httpStatusError ∧
     (httpErrorAt "https://x/ok" scenarioBResp 3).attempt = 3 ∧
     (httpErrorAt "https://x/ok" scenarioBResp 3).status = some 500) :=
  ⟨rfl, C1_retry_bound "https://x/ok" .GET { retries := 2 } none none scenarioBStub
    (httpErrorAt "https://x/ok" scenarioBResp 3) rfl⟩

end Fetcher

namespace Fetcher

/-- C2 counterexample: for a body that fails to encode, the executor
makes zero physical attempts, not one, and the serialization Failure
carries attempt = 0, not attempt = 1. -/
theorem C2_no_retry_counterexample :
    c2CexRun.attempts = 0 ∧
    c2CexRun.attempts ≠ 1 ∧
    c2CexRun.outcome = .error (serializationErrorAt "https://api2" "circular structure") ∧
    (serializationErrorAt "https://api2" "circular structure").kind = .serializationFailure ∧
    (serializationErrorAt "https://api2" "circular structure").attempt = 0 ∧
    (serializationErrorAt "https://api2" "circular structure").attempt ≠ 1 :=
  ⟨rfl, by decide, rfl, rfl, rfl, by decide⟩

/-- C2 amended: for every body that fails to encode (on a body-bearing
method), zero physical attempts are made — the serialization failure is
never retried — and the Outcome is an immediate Failure of kind
serialization-failure carrying attempt = 0; the onError observer is
never invoked. -/
theorem C2_no_retry_on_bad_payload (input : String) (opts : FetcherOptions)
    (params : Option QueryParams) (stub : Stub) (b : Body) (msg : String)
    (method : HttpMethod)
    (hb : bodyJson b = .error msg)
    (hm : method = .POST ∨ method = .PUT ∨ method = .PATCH) :
    (fetcher input method opts params (some b) stub).attempts = 0 ∧
    (fetcher input method opts params (some b) stub).onErrorLog = [] ∧
    (fetcher input method opts params (some b) stub).outcome =
      .error (serializationErrorAt (requestUrl input params) msg) ∧
    (serializationErrorAt (requestUrl input params) msg).kind = .serializationFailure ∧
    (serializationErrorAt (requestUrl input params) msg).attempt = 0 := by
  have hp : prepareRequest method (requestUrl input params) opts.headers (some b) =
      .error (serializationErrorAt (requestUrl input params) msg) := by
    simp [prepareRequest, if_pos hm, hb]
  simp [fetcher, hp, serializationErrorAt]

/-- C2 witness: an unencodable PUT body. -/
theorem C2_no_retry_on_bad_payload_witness :
    (bodyJson (.unencodable "cyclic value") = .error "cyclic value" ∧
     (HttpMethod.PUT = .POST ∨ HttpMethod.PUT = .PUT ∨ HttpMethod.PUT = .PATCH)) ∧
    ((fetcher "https://w2" .PUT {} none (some (.unencodable "cyclic value")) unusedStub).attempts = 0 ∧
     (fetcher "https://w2" .PUT {} none (some (.unencodable "cyclic value")) unusedStub).onErrorLog = [] ∧
     (fetcher "https://w2" .PUT {} none (some (.unencodable "cyclic value")) unusedStub).outcome =
       .error (serializationErrorAt (requestUrl "https://w2" none) "cyclic value") ∧
     (serializationErrorAt (requestUrl "https://w2" none) "cyclic value").kind = .serializationFailure ∧
     (serializationErrorAt (requestUrl "https://w2" none) "cyclic value").attempt = 0) :=
  ⟨⟨rfl, Or.inr (Or.inl rfl)⟩,
   C2_no_retry_on_bad_payload "https://w2" {} none unusedStub (.unencodable "cyclic value")
     "cyclic value" .PUT rfl (Or.inr (Or.inl rfl))⟩

end Fetcher

namespace Fetcher

/-! ## The failure trace -/

/-- Appending the Failure of the next physical attempt extends a
well-numbered trace: attempts stay the consecutive sequence 1, 2, …
and every recorded Failure keeps carrying the request URL. -/
lemma trace_step (s : ExecState) (e : Failure) (url : String)
    (hmap : s.failures.map Failure.attempt = List.range' 1 s.failures.length)
    (hlen : s.failures.length = s.attempt)
    (hall : s.failures.all (fun x => x.url == url) = true)
    (hea : e.attempt = s.attempt + 1) (heu : e.url = url) :
    (s.failures ++ [e]).map Failure.attempt = List.range' 1 (s.failures ++ [e]).length ∧
    (s.failures ++ [e]).length = s.attempt + 1 ∧
    (s.failures ++ [e]).all (fun x => x.url == url) = true := by
  refine ⟨?_, by simp [hlen], ?_⟩
  · rw [List.map_append, hmap]
    simp only [List.length_append, List.map_cons, List.map_nil, List.length_cons,
      List.length_nil]
    rw [show e.attempt = 1 + 1 * s.failures.length by omega]
    exact (List.range'_concat 1 _).symm
  · rw [List.all_append, hall]
    simp [heu]

/-- Across the retry loop, the failure trace stays well numbered: the
i-th recorded Failure carries attempt i + 1 and the request URL. -/
lemma retryLoop_trace (opts : FetcherOptions) (stub : Stub) (req : Request)
    (url : String) :
    ∀ (b : Nat) (s : ExecState),
      s.failures.map Failure.attempt = List.range' 1 s.failures.length →
      s.failures.length = s.attempt →
      s.failures.all (fun x => x.url == url) = true →
      (retryLoop opts stub req url b s).1.failures.map Failure.attempt =
        List.range' 1 (retryLoop opts stub req url b s).1.failures.length ∧
      (retryLoop opts stub req url b s).1.failures.all (fun x => x.url == url) = true := by
  intro b
  induction b with
  | zero =>
    intro s hmap hlen hall
    rcases executeRequest_cases opts stub req url s with ⟨v, hE⟩ |
      ⟨e, s1, hE, ha, hf, _, _, hea, heu, _⟩
    · simp only [retryLoop, hE]
      exact ⟨hmap, hall⟩
    · obtain ⟨t1, _, t3⟩ := trace_step s e url hmap hlen hall hea heu
      simp only [retryLoop, hE]
      rw [hf]
      exact ⟨t1, t3⟩
  | succ b ih =>
    intro s hmap hlen hall
    rcases executeRequest_cases opts stub req url s with ⟨v, hE⟩ |
      ⟨e, s1, hE, ha, hf, _, _, hea, heu, _⟩
    · simp only [retryLoop, hE]
      exact ⟨hmap, hall⟩
    · obtain ⟨t1, t2, t3⟩ := trace_step s e url hmap hlen hall hea heu
      simp only [retryLoop, hE]
      exact ih _ (by simpa [hf] using t1) (by simp [hf]; omega) (by simpa [hf] using t3)

/-- C8 amended: once the body has been attached successfully (no
pre-attempt serialization failure), every Failure produced during the
logical request carries the request URL and the 1-based attempt number
on which it was produced, and the attempt numbers of the produced
Failures form the consecutive sequence 1, 2, 3, … — incrementing by
exactly one per physical attempt, never decreasing.  (The pre-attempt
serialization Failure excluded here instead carries attempt = 0; see the
counterexample.) -/
theorem C8_attempt_numbering (input : String) (method : HttpMethod)
    (opts : FetcherOptions) (params : Option QueryParams) (body : Option Body)
    (stub : Stub) (req : Request)
    (h : prepareRequest method (requestUrl input params) opts.headers body = .ok req) :
    (fetcher input method opts params body stub).failures.map Failure.attempt =
      List.range' 1 (fetcher input method opts params body stub).failures.length ∧
    (fetcher input method opts params body stub).failures.all
      (fun e => e.url == (fetcher input method opts params body stub).url) = true := by
  have hT := retryLoop_trace opts stub req (requestUrl input params) opts.retries
    { attempt := 0, onErrorLog := [], failures := [], delays := [] } rfl rfl rfl
  rcases hL : retryLoop opts stub req (requestUrl input params) opts.retries
      { attempt := 0, onErrorLog := [], failures := [], delays := [] } with ⟨sfin, out⟩
  rw [hL] at hT
  cases out with
  | ok v => simpa [fetcher, h, runLoop, hL] using hT
  | error e0 =>
    simpa [fetcher, h, runLoop, hL, logOnError_failures] using hT

/-- C8 witness: a GET against an always-500 stub with one retry; the
trace attempts are [1, 2]. -/
theorem C8_attempt_numbering_witness :
    (prepareRequest .GET (requestUrl "https://w8" none) ({} : FetcherOptions).headers none =
      .ok { method := .GET, url := "https://w8", headers := [], body := none }) ∧
    ((fetcher "https://w8" .GET {} none none scenarioBStub).failures.map Failure.attempt =
      List.range' 1 (fetcher "https://w8" .GET {} none none scenarioBStub).failures.length ∧
    (fetcher "https://w8" .GET {} none none scenarioBStub).failures.all
      (fun e => e.url == (fetcher "https://w8" .GET {} none none scenarioBStub).url) = true) :=
  ⟨rfl, C8_attempt_numbering "https://w8" .GET {} none none scenarioBStub
    { method := .GET, url := "https://w8", headers := [], body := none } rfl⟩

/-- C8 counterexample: the serialization Failure is produced during the
logical request but carries attempt = 0, which is not a 1-based attempt
number, so the produced-failure trace is not the sequence starting at
1. -/
theorem C8_attempt_numbering_counterexample :
    c8CexRun.failures = [serializationErrorAt "https://api8" "cyclic"] ∧
    (serializationErrorAt "https://api8" "cyclic").attempt = 0 ∧
    ¬ 1 ≤ (serializationErrorAt "https://api8" "cyclic").attempt ∧
    c8CexRun.failures.map Failure.attempt ≠
      List.range' 1 c8CexRun.failures.length :=
  ⟨rfl, rfl, by decide, by decide⟩

end Fetcher

namespace Fetcher

/-- For methods without a body-attachment step, prepareRequest ignores
the body argument entirely and attaches none. -/
lemma prepareRequest_nonbodied (method : HttpMethod) (url : String)
    (hs : List (String × String)) (body : Option Body)
    (hm : ¬(method = .POST ∨ method = .PUT ∨ method = .PATCH)) :
    prepareRequest method url hs body =
      .ok { method := method, url := url, headers := hs, body := none } := by
  cases body with
  | none => rfl
  | some b => simp [prepareRequest, if_neg hm, buildRequest]

/-- C9: for GET, DELETE, OPTIONS and HEAD the issued request is
independent of the body argument — any supplied body is silently
ignored, the built request carries no body, no serialization failure
can occur, and two runs differing only in the body argument produce the
same FetchResult. -/
theorem C9_body_independence (input : String) (opts : FetcherOptions)
    (params : Option QueryParams) (stub : Stub) (body1 body2 : Option Body)
    (method : HttpMethod)
    (h : method = .GET ∨ method = .DELETE ∨ method = .OPTIONS ∨ method = .HEAD) :
    fetcher input method opts params body1 stub =
      fetcher input method opts params body2 stub ∧
    prepareRequest method (requestUrl input params) opts.headers body1 =
      .ok { method := method, url := requestUrl input params,
            headers := opts.headers, body := none } ∧
    outcomeKind (fetcher input method opts params body1 stub) ≠
      some .serializationFailure := by
  have hm : ¬(method = .POST ∨ method = .PUT ∨ method = .PATCH) := by
    rcases h with h | h | h | h <;> subst h <;> simp
  have hp1 := prepareRequest_nonbodied method (requestUrl input params) opts.headers body1 hm
  have hp2 := prepareRequest_nonbodied method (requestUrl input params) opts.headers body2 hm
  refine ⟨?_, hp1, ?_⟩
  · simp [fetcher, hp1, hp2]
  · have hrl := runLoop_spec opts stub
      { method := method, url := requestUrl input params,
        headers := opts.headers, body := none } (requestUrl input params)
    simp only [fetcher, hp1]
    intro hser
    rcases hout : (runLoop opts stub
      { method := method, url := requestUrl input params,
        headers := opts.headers, body := none } (requestUrl input params)).outcome with e0 | v
    · rw [outcomeKind, hout] at hser
      simp only [errKind] at hser
      exact (hrl.2.2 e0 hout).2.2.1 (Option.some.inj hser)
    · rw [outcomeKind, hout] at hser
      simp only [errKind] at hser
      cases hser

/-- C9 witness: a GET with two different bodies. -/
theorem C9_body_independence_witness :
    (HttpMethod.GET = .GET ∨ HttpMethod.GET = .DELETE ∨ HttpMethod.GET = .OPTIONS ∨
      HttpMethod.GET = .HEAD) ∧
    (fetcher "https://w9" .GET {} none (some (.encodable "x")) scenarioBStub =
       fetcher "https://w9" .GET {} none (some (.unencodable "boom")) scenarioBStub ∧
     prepareRequest .GET (requestUrl "https://w9" none) ({} : FetcherOptions).headers
         (some (.encodable "x")) =
       .ok { method := .GET, url := requestUrl "https://w9" none,
             headers := ({} : FetcherOptions).headers, body := none } ∧
     outcomeKind (fetcher "https://w9" .GET {} none (some (.encodable "x")) scenarioBStub) ≠
       some .serializationFailure) :=
  ⟨Or.inl rfl,
   C9_body_independence "https://w9" {} none scenarioBStub (some (.encodable "x"))
     (some (.unencodable "boom")) .GET (Or.inl rfl)⟩

end Fetcher

namespace Fetcher

/-! ## onError invocation accounting -/

/-- One physical attempt against a stub that always returns a non-2xx
response, with an observer supplied: the attempt fails with the
http-status-error Failure, which is appended both to the failure trace
and - at classification time - to the onError log. -/
lemma executeRequest_const_http (opts : FetcherOptions) (resp : HttpResponse)
    (req : Request) (url : String) (s : ExecState)
    (hbad : resp.status < 200 ∨ 300 ≤ resp.status) (hOn : opts.hasOnError = true) :
    executeRequest opts (fun _ _ => .response resp) req url s =
      ({ attempt := s.attempt + 1,
         onErrorLog := s.onErrorLog ++ [httpErrorAt url resp (s.attempt + 1)],
         failures := s.failures ++ [httpErrorAt url resp (s.attempt + 1)],
         delays := s.delays },
       .error (httpErrorAt url resp (s.attempt + 1))) := by
  simp [executeRequest, if_pos hbad, recordFailure, logOnError, hOn]

/-- The retry loop against an always-failing-status stub with an
observer: every attempt of the budget is made and logged once at
classification time; the final error is the http-status-error of the
last attempt, which is also the last entry of the log, and every log
entry is an http-status-error. -/
lemma retryLoop_const_http (opts : FetcherOptions) (resp : HttpResponse)
    (req : Request) (url : String)
    (hbad : resp.status < 200 ∨ 300 ≤ resp.status) (hOn : opts.hasOnError = true) :
    ∀ (b : Nat) (s : ExecState),
      (retryLoop opts (fun _ _ => .response resp) req url b s).2 =
        .error (httpErrorAt url resp (s.attempt + (b + 1))) ∧
      (retryLoop opts (fun _ _ => .response resp) req url b s).1.attempt =
        s.attempt + (b + 1) ∧
      (retryLoop opts (fun _ _ => .response resp) req url b s).1.onErrorLog.length =
        s.onErrorLog.length + (b + 1) ∧
      (retryLoop opts (fun _ _ => .response resp) req url b s).1.onErrorLog.getLast? =
        some (httpErrorAt url resp (s.attempt + (b + 1))) ∧
      (∀ x ∈ (retryLoop opts (fun _ _ => .response resp) req url b s).1.onErrorLog,
        x ∈ s.onErrorLog ∨ x.kind = .httpStatusError) := by
  intro b
  induction b with
  | zero =>
    intro s
    simp only [retryLoop, executeRequest_const_http opts resp req url s hbad hOn]
    refine ⟨by simp, by simp, by simp, List.getLast?_concat _, ?_⟩
    intro x hx
    rcases List.mem_append.mp hx with hx | hx
    · exact Or.inl hx
    · simp only [List.mem_singleton] at hx
      subst hx
      exact Or.inr rfl
  | succ b ih =>
    intro s
    simp only [retryLoop, executeRequest_const_http opts resp req url s hbad hOn,
      Nat.add_sub_cancel]
    obtain ⟨i1, i2, i3, i4, i5⟩ := ih
      { attempt := s.attempt + 1
        onErrorLog := s.onErrorLog ++ [httpErrorAt url resp (s.attempt + 1)]
        failures := s.failures ++ [httpErrorAt url resp (s.attempt + 1)]
        delays := s.delays ++ [retryScheduleDelay opts.retryDelay s.attempt] }
    dsimp only at i1 i2 i3 i4 i5
    have harith : s.attempt + 1 + (b + 1) = s.attempt + (b + 1 + 1) := by omega
    rw [harith] at i1 i2 i4
    simp only [List.length_append, List.length_singleton] at i3
    refine ⟨i1, i2, ?_, i4, ?_⟩
    · rw [i3]; omega
    · intro x hx
      rcases i5 x hx with hx' | hx'
      · rcases List.mem_append.mp hx' with hx'' | hx''
        · exact Or.inl hx''
        · simp only [List.mem_singleton] at hx''
          subst hx''
          exact Or.inr rfl
      · exact Or.inr hx'

end Fetcher

namespace Fetcher

/-- C6 counterexample: with maxRetries 0 and a single 500 response, the
onError observer is invoked twice with the very same Failure instance —
once at classification time and once more at the final boundary — so it
is not invoked at most once per distinct Failure instance. -/
theorem C6_onError_counterexample :
    c6CexRun.onErrorLog.length = 2 ∧
    c6CexRun.onErrorLog[0]? = some (httpErrorAt "https://y" scenarioBResp 1) ∧
    c6CexRun.onErrorLog[1]? = some (httpErrorAt "https://y" scenarioBResp 1) ∧
    c6CexRun.outcome = .error (httpErrorAt "https://y" scenarioBResp 1) :=
  ⟨rfl, rfl, rfl, rfl⟩

/-- C6 amended: the onError observer fires at classification time for
every http-status-error (and validation-failure) Failure, and fires once
more, unconditionally, at the final exhaustion boundary — including for
the final Failure already observed at classification.  Against an
always-failing-status stub with maxRetries R the observer therefore
fires R + 2 times, every observed Failure is an http-status-error, and
the final Failure instance occupies both of the last two log positions. -/
theorem C6_onError_double_invocation (input : String) (opts : FetcherOptions)
    (resp : HttpResponse) (hOn : opts.hasOnError = true)
    (hbad : resp.status < 200 ∨ 300 ≤ resp.status) :
    (fetcher input .GET opts none none (fun _ _ => .response resp)).onErrorLog.length =
      opts.retries + 2 ∧
    (fetcher input .GET opts none none (fun _ _ => .response resp)).outcome =
      .error (httpErrorAt input resp (opts.retries + 1)) ∧
    (fetcher input .GET opts none none (fun _ _ => .response resp)).onErrorLog.getLast? =
      some (httpErrorAt input resp (opts.retries + 1)) ∧
    (fetcher input .GET opts none none (fun _ _ => .response resp)).onErrorLog.dropLast.getLast? =
      some (httpErrorAt input resp (opts.retries + 1)) ∧
    (fetcher input .GET opts none none (fun _ _ => .response resp)).onErrorLog.all
      (fun x => x.kind == FailureKind.httpStatusError) = true := by
  obtain ⟨l1, l2, l3, l4, l5⟩ := retryLoop_const_http opts resp
    { method := .GET, url := input, headers := opts.headers, body := none } input hbad hOn
    opts.retries { attempt := 0, onErrorLog := [], failures := [], delays := [] }
  dsimp only at l1 l2 l3 l4 l5
  simp only [Nat.zero_add, List.length_nil] at l1 l2 l3 l4
  rcases hL : retryLoop opts (fun _ _ => .response resp)
      { method := .GET, url := input, headers := opts.headers, body := none } input
      opts.retries { attempt := 0, onErrorLog := [], failures := [], delays := [] }
    with ⟨sfin, out⟩
  rw [hL] at l1 l2 l3 l4 l5
  simp only at l1 l2 l3 l4 l5
  subst l1
  have hfetch : fetcher input .GET opts none none (fun _ _ => .response resp) =
      { url := input,
        outcome := .error (httpErrorAt input resp (opts.retries + 1)),
        attempts := sfin.attempt,
        onErrorLog := sfin.onErrorLog ++ [httpErrorAt input resp (opts.retries + 1)],
        failures := sfin.failures,
        delays := sfin.delays } := by
    simp only [fetcher, requestUrl, prepareRequest, buildRequest, runLoop, hL,
      logOnError, hOn, if_true]
  rw [hfetch]
  refine ⟨by simp [l3], rfl, List.getLast?_concat _, ?_, ?_⟩
  · rw [List.dropLast_concat]
    exact l4
  · rw [List.all_eq_true]
    intro x hx
    rcases List.mem_append.mp hx with hx' | hx'
    · rcases l5 x hx' with hx'' | hx''
      · cases hx''
      · simp [hx'']
    · simp only [List.mem_singleton] at hx'
      subst hx'
      simp [httpErrorAt]

/-- C6 witness: a 500 response, no retries, observer supplied. -/
theorem C6_onError_double_invocation_witness :
    (({ hasOnError := true } : FetcherOptions).hasOnError = true ∧
     (scenarioBResp.status < 200 ∨ 300 ≤ scenarioBResp.status)) ∧
    ((fetcher "https://w6" .GET { hasOnError := true } none none
        (fun _ _ => .response scenarioBResp)).onErrorLog.length =
      ({ hasOnError := true } : FetcherOptions).retries + 2 ∧
    (fetcher "https://w6" .GET { hasOnError := true } none none
        (fun _ _ => .response scenarioBResp)).outcome =
      .error (httpErrorAt "https://w6" scenarioBResp
        (({ hasOnError := true } : FetcherOptions).retries + 1)) ∧
    (fetcher "https://w6" .GET { hasOnError := true } none none
        (fun _ _ => .response scenarioBResp)).onErrorLog.getLast? =
      some (httpErrorAt "https://w6" scenarioBResp
        (({ hasOnError := true } : FetcherOptions).retries + 1)) ∧
    (fetcher "https://w6" .GET { hasOnError := true } none none
        (fun _ _ => .response scenarioBResp)).onErrorLog.dropLast.getLast? =
      some (httpErrorAt "https://w6" scenarioBResp
        (({ hasOnError := true } : FetcherOptions).retries + 1)) ∧
    (fetcher "https://w6" .GET { hasOnError := true } none none
        (fun _ _ => .response scenarioBResp)).onErrorLog.all
      (fun x => x.kind == FailureKind.httpStatusError) = true) :=
  ⟨⟨rfl, by decide⟩,
   C6_onError_double_invocation "https://w6" { hasOnError := true } scenarioBResp rfl
     (by decide)⟩

end Fetcher
